import Mathlib

/-!
Shallow embedding of `src/process.rs`: the process-spawning layer of the
runtime library (`Command`, `Stdio`, `Child`, `ExitStatus`, and the spawn
engine `Command::exec`).

Modelling conventions:
- Rust strings are modelled as `List Char` (`RStr`); `push`/`push_str`
  become list append, `contains(c)` becomes `List.contains`,
  `ends_with('/')` becomes `getLast? == some '/'`.
- Machine `usize` values (file descriptors, pids, raw status words, clone
  flags) are `Nat`; the `as i32` cast is made explicit as `% 2 ^ 32` with
  two's-complement reinterpretation (`asI32`).
- Syscalls (`clone`, `dup`, `pipe2`, `waitpid`) are external collaborators:
  their outcomes enter the model as parameters (`Except Nat _`, carrying the
  error number on failure), and the engine's descriptor traffic is recorded
  as an explicit trace: the list of descriptors the parent closes, and the
  list of child-side operations (`ChildOp`).
-/

abbrev RStr := List Char

/-- Raw wait-status wrapper, from the source: `struct ExitStatus { status: usize }`. -/
structure ExitStatus where
  status : Nat
deriving DecidableEq

/-- Two's-complement reinterpretation of `s as i32`: truncate the raw word to
32 bits and read it as a signed 32-bit value. -/
def asI32 (s : Nat) : Int :=
  if s % 2 ^ 32 < 2 ^ 31 then (s % 2 ^ 32 : Int) else (s % 2 ^ 32 : Int) - 2 ^ 32

/-- From the source: `pub fn success(&self) -> bool { self.status == 0 }`. -/
def ExitStatus.success (e : ExitStatus) : Bool :=
  e.status == 0

/-- From the source: `pub fn code(&self) -> Option<i32> { Some(self.status as i32) }`. -/
def ExitStatus.code (e : ExitStatus) : Option Int :=
  some (asI32 e.status)

/-- Handle to a spawned process, from the source `struct Child`. Each owned
stream handle (`ChildStdin`/`ChildStdout`/`ChildStderr`) exclusively owns one
descriptor, so the three handles are modelled by the descriptor they wrap. -/
structure Child where
  pid : Nat
  stdin : Option Nat
  stdout : Option Nat
  stderr : Option Nat
deriving DecidableEq

/-- From the source `Child::wait`: `waitpid` either fails with an error number
or writes the raw status word, which is wrapped unchanged into `ExitStatus`. -/
def Child.wait (waitpidRes : Except Nat Nat) : Except Nat ExitStatus :=
  waitpidRes.map fun status => ⟨status⟩

/-- Modelled from the spec: the kernel's wait-status encoding is not part of
src/ (`waitpid` is an external syscall). Per the spec's testable property
("`wait()` on a child that exits with code 0 yields ... `code() == Some(0)`;
on a child that exits with code 7 ... `code() == Some(7)`") and §3 ("the
platform's normal exit code 0 encoding"), a child that exits with code `c`
produces the raw status word `c` itself. -/
def waitStatusOfExit (c : Nat) : Nat := c

/-- From the source: `enum StdioType` with `#[derive(Copy, Clone)]`. -/
inductive StdioType where
  | Piped (read : Nat) (write : Nat)
  | Raw (fd : Nat)
  | Inherit
  | Null
deriving DecidableEq

/-- From the source: `pub struct Stdio { inner: StdioType }`. -/
structure Stdio where
  inner : StdioType
deriving DecidableEq

/-- From the source: `Stdio::null()`. -/
def Stdio.null : Stdio :=
  ⟨.Null⟩

/-- From the source: `Stdio::inherit()`. -/
def Stdio.inherit : Stdio :=
  ⟨.Inherit⟩

/-- From the source: `Stdio::piped()` calls `pipe2(&mut fds, 0)`; if it
succeeds the result is `Piped(fds[0], fds[1])`, otherwise `Stdio::null()`.
The `pipe2` outcome (the two descriptors it writes, or the error) is the
parameter. -/
def Stdio.piped (pipe2Res : Except Nat (Nat × Nat)) : Stdio :=
  match pipe2Res with
  | .ok fds => ⟨.Piped fds.1 fds.2⟩
  | .error _ => Stdio.null

/-- From the source: `impl FromRawFd for Stdio`. -/
def Stdio.from_raw_fd (fd : Nat) : Stdio :=
  ⟨.Raw fd⟩

/-- From the source: `struct Command`, with its env override map modelled as
an association list in the map's iteration order. -/
structure Command where
  path : RStr
  args : List RStr
  env : List (RStr × RStr)
  stdin : Stdio
  stdout : Stdio
  stderr : Stdio
deriving DecidableEq

/-- From the source: `Command::new` stores the path verbatim and defaults all
three streams to `Stdio::inherit()`. -/
def Command.new (path : RStr) : Command :=
  ⟨path, [], [], Stdio.inherit, Stdio.inherit, Stdio.inherit⟩

/-- Clone-flag constant of the external `syscall` crate (imported by the
source at line 14): share the address space between parent and child. -/
def CLONE_VM : Nat := 0x100

/-- Clone-flag constant of the external `syscall` crate: block the parent
until the child calls exec or exits. -/
def CLONE_VFORK : Nat := 0x4000

/-- Clone-flag constant of the external `syscall` crate: create the child in
a supervised state. -/
def CLONE_SUPERVISE : Nat := 0x400000

/-- From the source, line 279: `match unsafe { clone(flags) }` — the `flags`
argument of `exec` is handed to `clone` unchanged. -/
def execCloneFlags (flags : Nat) : Nat := flags

/-- From the source: `spawn` calls `self.exec(0)`. -/
def spawnCloneFlags : Nat := execCloneFlags 0

/-- From the source: `spawn_supervise` calls `self.exec(CLONE_SUPERVISE)`. -/
def spawnSuperviseCloneFlags : Nat := execCloneFlags CLONE_SUPERVISE

/-- From the source (lines 179–191): path resolution inside `exec`. If the
path contains `':'` or `'/'` it is used verbatim; otherwise the `PATH`
variable (or `"."` when unset, modelled by the `Option` parameter) gets a
`'/'` appended unless it already ends in one, and the path is appended. -/
def resolvePath (path : RStr) (pathVar : Option RStr) : RStr :=
  if path.contains ':' || path.contains '/' then
    path
  else
    let path_env := pathVar.getD ['.']
    let path_env := if ! (path_env.getLast? == some '/') then path_env ++ ['/'] else path_env
    path_env ++ path

/-- Statement of the spec's resolution rule in the spec's own phrasing, for
comparison with `resolvePath`: verbatim when the path contains a separator or
a scheme delimiter, else the `PATH` directory followed by a separator (when
not already present) followed by the path. -/
def resolvePathSpec (path : RStr) (pathVar : Option RStr) : RStr :=
  if path.contains '/' || path.contains ':' then
    path
  else
    let dir := pathVar.getD ['.']
    dir ++ ((if dir.getLast? == some '/' then [] else ['/']) ++ path)

/-- Descriptors owned by one Stdio selection: both pipe ends for `Piped`, the
raw descriptor for `Raw`, nothing otherwise (data model, spec §3). -/
def ownedFds : StdioType → List Nat
  | .Piped r w => [r, w]
  | .Raw fd => [fd]
  | _ => []

/-- From the source success path (lines 328–369): the `Child` the parent
assembles — for `Piped` stdin the write end is kept, for `Piped`
stdout/stderr the read end is kept, `Raw`/`Inherit`/`Null` expose no handle. -/
def assembleChild (pid : Nat) (i o e : StdioType) : Child :=
  { pid := pid
    stdin := match i with | .Piped _ w => some w | _ => none
    stdout := match o with | .Piped r _ => some r | _ => none
    stderr := match e with | .Piped r _ => some r | _ => none }

/-- From the source success path: the descriptors the parent closes, in
evaluation order stdin, stdout, stderr — the read end of a `Piped` stdin, the
write end of a `Piped` stdout/stderr, and any `Raw` descriptor. -/
def successCloses (i o e : StdioType) : List Nat :=
  (match i with | .Piped r _ => [r] | .Raw fd => [fd] | _ => []) ++
  (match o with | .Piped _ w => [w] | .Raw fd => [fd] | _ => []) ++
  (match e with | .Piped _ w => [w] | .Raw fd => [fd] | _ => [])

/-- From the source failure path, stdin arm (lines 293–302): `close(read)`
then `close(write)` for `Piped`, `close(fd)` for `Raw`. -/
def failureClosesStdin : StdioType → List Nat
  | .Piped r w => [r, w]
  | .Raw fd => [fd]
  | _ => []

/-- From the source failure path, stdout/stderr arms (lines 304–324):
`close(write)` then `close(read)` for `Piped`, `close(fd)` for `Raw`. -/
def failureClosesOut : StdioType → List Nat
  | .Piped r w => [w, r]
  | .Raw fd => [fd]
  | _ => []

/-- From the source failure path (lines 292–325): cleanup order is stdin,
then stdout, then stderr. -/
def failureCloses (i o e : StdioType) : List Nat :=
  failureClosesStdin i ++ failureClosesOut o ++ failureClosesOut e

/-- Outcome of the `clone` call as seen by the spawn engine: either the
syscall failed (no child was created), or it returned a nonzero pid and the
engine continues as the parent. The `Ok(0)` child branch never returns to the
engine (it ends in exec or exit) and is modelled separately by `childCode`. -/
inductive CloneOutcome where
  | failed (err : Nat)
  | parent (pid : Nat)
deriving DecidableEq

/-- Result of one spawn attempt as observed by the caller: the returned value
and the list of descriptors the parent-side engine closed, in order. -/
structure SpawnOutcome where
  result : Except Nat Child
  closed : List Nat

/-- From the source (lines 279–373), the parent-side spawn engine: on clone
failure the error is returned directly (no close calls are made); on a
parent return, the demuxed shared result cell (`resWord`) decides between the
failure cleanup (close everything, return the decoded error) and the success
path (close the child-side ends, assemble the `Child`). -/
def execEngine (c : Command) (cloneRes : CloneOutcome) (resWord : Except Nat Nat) : SpawnOutcome :=
  match cloneRes with
  | .failed err => { result := .error err, closed := [] }
  | .parent pid =>
    match resWord with
    | .error err =>
      { result := .error err
        closed := failureCloses c.stdin.inner c.stdout.inner c.stderr.inner }
    | .ok _ =>
      { result := .ok (assembleChild pid c.stdin.inner c.stdout.inner c.stderr.inner)
        closed := successCloses c.stdin.inner c.stdout.inner c.stderr.inner }

/-- From the source: `exec` takes `&mut self` and never assigns to any field
of the Command — the three `Stdio` selections are read through the `Copy`
type `StdioType` (`self.stdin.inner` etc.), not moved or cleared — so the
Command after a spawn attempt is the Command before it. -/
def execCommandAfter (c : Command) : Command := c

/-- Child-side operations recorded while running the child closure. -/
inductive ChildOp where
  | close (fd : Nat)
  | dup (fd : Nat)
  | setEnv (key val : RStr)
  | execve (path : RStr)
deriving DecidableEq

/-- From the source child closure, stderr/stdout arms (slots 2 and 1): for
`Piped(read, write)` close the read end, close the slot, dup the write end,
close the write end, keeping dup's outcome; for `Raw(fd)` close the slot, dup
`fd`, close `fd`; for `Null` close the slot; for `Inherit` do nothing. The
`dupRes` parameter models the dup syscall's outcome per descriptor. -/
def wireOutStream (dupRes : Nat → Except Nat Nat) (slot : Nat) :
    StdioType → Except Nat Nat × List ChildOp
  | .Piped r w => (dupRes w, [.close r, .close slot, .dup w, .close w])
  | .Raw fd => (dupRes fd, [.close slot, .dup fd, .close fd])
  | .Null => (.ok 0, [.close slot])
  | .Inherit => (.ok 0, [])

/-- From the source child closure, stdin arm (slot 0): for
`Piped(read, write)` close the write end, close slot 0, dup the read end,
close the read end; otherwise as for the other slots. -/
def wireInStream (dupRes : Nat → Except Nat Nat) :
    StdioType → Except Nat Nat × List ChildOp
  | .Piped r w => (dupRes r, [.close w, .close 0, .dup r, .close r])
  | .Raw fd => (dupRes fd, [.close 0, .dup fd, .close fd])
  | .Null => (.ok 0, [.close 0])
  | .Inherit => (.ok 0, [])

/-- From the source child closure `child_code` (lines 204–277): the three
match statements run unconditionally in order stderr, stdout, stdin, each
recording its descriptor surgery and its dup outcome; only then are the three
outcomes checked (`try!`) in the same order. If all succeeded, the env
overrides are installed in iteration order and `execve` is invoked (whose own
outcome is external and does not change the recorded trace). The result is
the full operation trace plus the first wiring error, if any. -/
def childCode (dupRes : Nat → Except Nat Nat) (i o e : StdioType)
    (env : List (RStr × RStr)) (path : RStr) : List ChildOp × Except Nat Unit :=
  let se := wireOutStream dupRes 2 e
  let so := wireOutStream dupRes 1 o
  let si := wireInStream dupRes i
  let surgery := se.2 ++ so.2 ++ si.2
  match se.1 with
  | .error err => (surgery, .error err)
  | .ok _ =>
    match so.1 with
    | .error err => (surgery, .error err)
    | .ok _ =>
      match si.1 with
      | .error err => (surgery, .error err)
      | .ok _ => (surgery ++ env.map (fun kv => .setEnv kv.1 kv.2) ++ [.execve path], .ok ())

/-- Stream handle the spec prescribes for the child's stdin on success: the
pipe's write end for `Piped`, no handle otherwise. -/
def specStdinHandle : StdioType → Option Nat
  | .Piped _ w => some w
  | _ => none

/-- Stream handle the spec prescribes for the child's stdout/stderr on
success: the pipe's read end for `Piped`, no handle otherwise. -/
def specOutHandle : StdioType → Option Nat
  | .Piped r _ => some r
  | _ => none

/-- Descriptors the spec says the parent closes on success for the stdin
stream: the end installed into the child (the read end) of a `Piped`, or the
original `Raw` descriptor. -/
def specStdinCloses : StdioType → List Nat
  | .Piped r _ => [r]
  | .Raw fd => [fd]
  | _ => []

/-- Descriptors the spec says the parent closes on success for a
stdout/stderr stream: the end installed into the child (the write end) of a
`Piped`, or the original `Raw` descriptor. -/
def specOutCloses : StdioType → List Nat
  | .Piped _ w => [w]
  | .Raw fd => [fd]
  | _ => []

lemma assembleChild_eq_spec (pid : Nat) (i o e : StdioType) :
    assembleChild pid i o e =
      { pid := pid, stdin := specStdinHandle i, stdout := specOutHandle o,
        stderr := specOutHandle e } := by
  cases i <;> cases o <;> cases e <;> rfl

lemma successCloses_eq_spec (i o e : StdioType) :
    successCloses i o e = specStdinCloses i ++ specOutCloses o ++ specOutCloses e := by
  cases i <;> cases o <;> cases e <;> rfl

lemma count_failureClosesStdin (s : StdioType) (fd : Nat) :
    (failureClosesStdin s).count fd = (ownedFds s).count fd := by
  cases s <;> rfl

lemma count_failureClosesOut (s : StdioType) (fd : Nat) :
    (failureClosesOut s).count fd = (ownedFds s).count fd := by
  cases s with
  | Piped r w => exact (List.Perm.swap r w []).count_eq fd
  | Raw fd' => rfl
  | Inherit => rfl
  | Null => rfl

lemma count_failureCloses (i o e : StdioType) (fd : Nat) :
    (failureCloses i o e).count fd = (ownedFds i ++ ownedFds o ++ ownedFds e).count fd := by
  simp [failureCloses, List.count_append, count_failureClosesStdin, count_failureClosesOut]

lemma wireOutStream_ops (dupRes : Nat → Except Nat Nat) (slot : Nat) (s : StdioType) :
    ∀ op ∈ (wireOutStream dupRes slot s).2,
      (∃ fd, op = ChildOp.close fd) ∨ ∃ fd, op = ChildOp.dup fd := by
  cases s <;> intro op hop <;> simp only [wireOutStream, List.mem_cons, List.not_mem_nil] at hop
  case Piped r w =>
    rcases hop with rfl | rfl | rfl | rfl | h
    · exact Or.inl ⟨r, rfl⟩
    · exact Or.inl ⟨slot, rfl⟩
    · exact Or.inr ⟨w, rfl⟩
    · exact Or.inl ⟨w, rfl⟩
    · simp at h
  case Raw fd =>
    rcases hop with rfl | rfl | rfl | h
    · exact Or.inl ⟨slot, rfl⟩
    · exact Or.inr ⟨fd, rfl⟩
    · exact Or.inl ⟨fd, rfl⟩
    · simp at h
  case Null =>
    rcases hop with rfl | h
    · exact Or.inl ⟨slot, rfl⟩
    · simp at h

lemma wireInStream_ops (dupRes : Nat → Except Nat Nat) (s : StdioType) :
    ∀ op ∈ (wireInStream dupRes s).2,
      (∃ fd, op = ChildOp.close fd) ∨ ∃ fd, op = ChildOp.dup fd := by
  cases s <;> intro op hop <;> simp only [wireInStream, List.mem_cons, List.not_mem_nil] at hop
  case Piped r w =>
    rcases hop with rfl | rfl | rfl | rfl | h
    · exact Or.inl ⟨w, rfl⟩
    · exact Or.inl ⟨0, rfl⟩
    · exact Or.inr ⟨r, rfl⟩
    · exact Or.inl ⟨r, rfl⟩
    · simp at h
  case Raw fd =>
    rcases hop with rfl | rfl | rfl | h
    · exact Or.inl ⟨0, rfl⟩
    · exact Or.inr ⟨fd, rfl⟩
    · exact Or.inl ⟨fd, rfl⟩
    · simp at h
  case Null =>
    rcases hop with rfl | h
    · exact Or.inl ⟨0, rfl⟩
    · simp at h

/-- C1: the claim says the flags passed to the single clone call always
include both `CLONE_VM` and `CLONE_VFORK` (plus `CLONE_SUPERVISE` for
`spawn_supervise`). Evaluating the code: `spawn` hands `clone` the flag word
`0` and `spawn_supervise` hands it exactly `CLONE_SUPERVISE`, so neither call
sets the `CLONE_VM` or `CLONE_VFORK` bit. -/
theorem clone_flags_lack_vm_vfork :
    spawnCloneFlags = 0 ∧
    spawnCloneFlags &&& CLONE_VM = 0 ∧
    spawnCloneFlags &&& CLONE_VFORK = 0 ∧
    spawnSuperviseCloneFlags = CLONE_SUPERVISE ∧
    spawnSuperviseCloneFlags &&& CLONE_VM = 0 ∧
    spawnSuperviseCloneFlags &&& CLONE_VFORK = 0 := by
  refine ⟨rfl, by decide, by decide, rfl, by decide, by decide⟩

/-- C2: the claim says a failing clone call is followed by closing every
descriptor owned by the three Stdio values before the error is returned.
Evaluating the code at stdin = `Piped(3, 4)`, stdout = `Piped(5, 6)`,
stderr = `Raw(7)` with clone failing with error 11: the engine closes
nothing (the owned descriptors 3, 4, 5, 6, 7 all leak) and returns the
error. -/
theorem clone_error_closes_nothing :
    (execEngine
        { path := ['p'], args := [], env := [],
          stdin := ⟨.Piped 3 4⟩, stdout := ⟨.Piped 5 6⟩, stderr := ⟨.Raw 7⟩ }
        (.failed 11) (.ok 0)).closed = [] ∧
    (execEngine
        { path := ['p'], args := [], env := [],
          stdin := ⟨.Piped 3 4⟩, stdout := ⟨.Piped 5 6⟩, stderr := ⟨.Raw 7⟩ }
        (.failed 11) (.ok 0)).result = .error 11 ∧
    ownedFds (.Piped 3 4) ++ ownedFds (.Piped 5 6) ++ ownedFds (.Raw 7) = [3, 4, 5, 6, 7] :=
  ⟨rfl, rfl, rfl⟩

/-- C9: `Stdio::piped()` degrades to `Stdio::null()` when pipe creation
fails, and wraps the pipe's read and write ends on success. -/
theorem stdio_piped_behavior :
    (∀ e : Nat, Stdio.piped (.error e) = Stdio.null) ∧
    (∀ r w : Nat, Stdio.piped (.ok (r, w)) = ⟨.Piped r w⟩) :=
  ⟨fun _ => rfl, fun _ _ => rfl⟩

/-- C3 counterexample: with stderr = `Raw 5`, stdin = stdout = `Null`, and a
dup syscall that always fails with error 9, the stderr wiring (the first
stream processed) fails, yet the stdin surgery — `close(0)`, from a stream
processed after the failing one — still appears in the child's operation
trace, so a wiring failure does not prevent descriptor surgery for the
remaining streams. -/
theorem child_wiring_not_short_circuited :
    (childCode (fun _ => .error 9) .Null .Null (.Raw 5) [] ['p']).2 = .error 9 ∧
    ChildOp.close 0 ∈ (childCode (fun _ => .error 9) .Null .Null (.Raw 5) [] ['p']).1 :=
  ⟨rfl, by decide⟩

/-- C3 (amended): a failure while wiring any stream's descriptors is detected
only after all three streams' descriptor surgery has run — on failure the
child's trace is exactly the stderr, stdout and stdin surgery, in that order
— and it short-circuits the remaining phases: no environment override is
installed and exec is not invoked. -/
theorem child_wiring_failure_behavior (dupRes : Nat → Except Nat Nat) (i o e : StdioType)
    (env : List (RStr × RStr)) (path : RStr) (err : Nat)
    (h : (childCode dupRes i o e env path).2 = .error err) :
    (childCode dupRes i o e env path).1 =
      (wireOutStream dupRes 2 e).2 ++ (wireOutStream dupRes 1 o).2 ++
        (wireInStream dupRes i).2 ∧
    (∀ k v, ChildOp.setEnv k v ∉ (childCode dupRes i o e env path).1) ∧
    (∀ q, ChildOp.execve q ∉ (childCode dupRes i o e env path).1) := by
  have htrace : (childCode dupRes i o e env path).1 =
      (wireOutStream dupRes 2 e).2 ++ (wireOutStream dupRes 1 o).2 ++
        (wireInStream dupRes i).2 := by
    unfold childCode at h ⊢
    rcases he : (wireOutStream dupRes 2 e).1 with err' | v
    · simp [he]
    rcases ho : (wireOutStream dupRes 1 o).1 with err' | v'
    · simp [he, ho]
    rcases hi : (wireInStream dupRes i).1 with err' | v''
    · simp [he, ho, hi]
    · simp [he, ho, hi] at h
  refine ⟨htrace, ?_, ?_⟩
  · intro k v hmem
    rw [htrace] at hmem
    rcases List.mem_append.mp hmem with hmem' | hmem'
    · rcases List.mem_append.mp hmem' with hmem'' | hmem''
      · rcases wireOutStream_ops dupRes 2 e _ hmem'' with ⟨fd, hop⟩ | ⟨fd, hop⟩ <;> simp at hop
      · rcases wireOutStream_ops dupRes 1 o _ hmem'' with ⟨fd, hop⟩ | ⟨fd, hop⟩ <;> simp at hop
    · rcases wireInStream_ops dupRes i _ hmem' with ⟨fd, hop⟩ | ⟨fd, hop⟩ <;> simp at hop
  · intro q hmem
    rw [htrace] at hmem
    rcases List.mem_append.mp hmem with hmem' | hmem'
    · rcases List.mem_append.mp hmem' with hmem'' | hmem''
      · rcases wireOutStream_ops dupRes 2 e _ hmem'' with ⟨fd, hop⟩ | ⟨fd, hop⟩ <;> simp at hop
      · rcases wireOutStream_ops dupRes 1 o _ hmem'' with ⟨fd, hop⟩ | ⟨fd, hop⟩ <;> simp at hop
    · rcases wireInStream_ops dupRes i _ hmem' with ⟨fd, hop⟩ | ⟨fd, hop⟩ <;> simp at hop

/-- Witness for the amended C3 theorem at a concrete input: stderr = `Raw 5`
with a failing dup, one env override pending, stdin = stdout = `Null`. -/
theorem child_wiring_failure_witness :
    (childCode (fun _ => .error 9) .Null .Null (.Raw 5) [(['K'], ['V'])] ['p']).1 =
      (wireOutStream (fun _ => (.error 9 : Except Nat Nat)) 2 (.Raw 5)).2 ++
        (wireOutStream (fun _ => (.error 9 : Except Nat Nat)) 1 .Null).2 ++
        (wireInStream (fun _ => (.error 9 : Except Nat Nat)) .Null).2 :=
  (child_wiring_failure_behavior (fun _ => .error 9) .Null .Null (.Raw 5)
    [(['K'], ['V'])] ['p'] 9 rfl).1

/-- C4: on a spawn attempt whose child branch reported a failure through the
shared result cell, the parent closes every descriptor owned by the three
original Stdio values exactly once — provided the owned descriptors are
pairwise distinct, the data-model invariant of spec §3 — closes nothing
else, and returns the decoded error instead of a Child. -/
theorem parent_failure_cleanup (c : Command) (pid err : Nat)
    (h : (ownedFds c.stdin.inner ++ ownedFds c.stdout.inner ++ ownedFds c.stderr.inner).Nodup) :
    (execEngine c (.parent pid) (.error err)).result = .error err ∧
    (∀ fd, fd ∈ ownedFds c.stdin.inner ++ ownedFds c.stdout.inner ++ ownedFds c.stderr.inner →
      ((execEngine c (.parent pid) (.error err)).closed).count fd = 1) ∧
    (∀ fd, fd ∉ ownedFds c.stdin.inner ++ ownedFds c.stdout.inner ++ ownedFds c.stderr.inner →
      ((execEngine c (.parent pid) (.error err)).closed).count fd = 0) := by
  have hcl : (execEngine c (.parent pid) (.error err)).closed =
      failureCloses c.stdin.inner c.stdout.inner c.stderr.inner := rfl
  refine ⟨rfl, ?_, ?_⟩
  · intro fd hmem
    rw [hcl, count_failureCloses]
    exact List.count_eq_one_of_mem h hmem
  · intro fd hmem
    rw [hcl, count_failureCloses]
    exact List.count_eq_zero.mpr hmem

/-- Witness for the C4 theorem at a concrete input: stdin = `Piped(3, 4)`,
stdout = `Raw 7`, stderr = `Null`, child-reported error 5 — descriptor 4 is
closed exactly once, descriptor 2 (not owned) is never closed, and the error
is returned. -/
theorem parent_failure_cleanup_witness :
    (execEngine
        { path := ['q'], args := [], env := [],
          stdin := ⟨.Piped 3 4⟩, stdout := ⟨.Raw 7⟩, stderr := ⟨.Null⟩ }
        (.parent 9) (.error 5)).result = .error 5 ∧
    ((execEngine
        { path := ['q'], args := [], env := [],
          stdin := ⟨.Piped 3 4⟩, stdout := ⟨.Raw 7⟩, stderr := ⟨.Null⟩ }
        (.parent 9) (.error 5)).closed).count 4 = 1 ∧
    ((execEngine
        { path := ['q'], args := [], env := [],
          stdin := ⟨.Piped 3 4⟩, stdout := ⟨.Raw 7⟩, stderr := ⟨.Null⟩ }
        (.parent 9) (.error 5)).closed).count 2 = 0 := by
  have h := parent_failure_cleanup
    { path := ['q'], args := [], env := [],
      stdin := ⟨.Piped 3 4⟩, stdout := ⟨.Raw 7⟩, stderr := ⟨.Null⟩ }
    9 5 (by decide)
  exact ⟨h.1, h.2.1 4 (by decide), h.2.2 2 (by decide)⟩

/-- C5: on a successful spawn the parent returns a `Child` whose stream
handles follow the spec rule per stream — `Piped` stdin keeps the write end,
`Piped` stdout/stderr keep the read end, `Raw`/`Inherit`/`Null` expose no
handle — and closes exactly the child-installed pipe ends and the raw
descriptors; in particular a Command with all-`Inherit` Stdio yields a
`Child` with all three handles `None` and no close at all. -/
theorem spawn_success_streams :
    (∀ (c : Command) (pid w : Nat),
      (execEngine c (.parent pid) (.ok w)).result =
        .ok { pid := pid
              stdin := specStdinHandle c.stdin.inner
              stdout := specOutHandle c.stdout.inner
              stderr := specOutHandle c.stderr.inner } ∧
      (execEngine c (.parent pid) (.ok w)).closed =
        specStdinCloses c.stdin.inner ++ specOutCloses c.stdout.inner ++
          specOutCloses c.stderr.inner) ∧
    (∀ (p : RStr) (a : List RStr) (ev : List (RStr × RStr)) (pid w : Nat),
      (execEngine ⟨p, a, ev, Stdio.inherit, Stdio.inherit, Stdio.inherit⟩
          (.parent pid) (.ok w)).result =
        .ok { pid := pid, stdin := none, stdout := none, stderr := none } ∧
      (execEngine ⟨p, a, ev, Stdio.inherit, Stdio.inherit, Stdio.inherit⟩
          (.parent pid) (.ok w)).closed = []) := by
  constructor
  · intro c pid w
    constructor
    · show Except.ok (assembleChild pid c.stdin.inner c.stdout.inner c.stderr.inner) = _
      rw [assembleChild_eq_spec]
    · show successCloses c.stdin.inner c.stdout.inner c.stderr.inner = _
      rw [successCloses_eq_spec]
  · intro p a ev pid w
    exact ⟨rfl, rfl⟩

/-- C6: the resolved executable path follows the spec's rule — verbatim when
the path contains `'/'` or `':'`, otherwise the `PATH` value (default `"."`)
with a `'/'` appended when not already present, followed by the path — and on
the spec's examples: `"foo"` with `PATH="/bin"` resolves to `"/bin/foo"`,
while `"./foo"` and `"/bin/foo"` are used unchanged for every `PATH`. -/
theorem path_resolution :
    (∀ (path : RStr) (pathVar : Option RStr),
      resolvePath path pathVar = resolvePathSpec path pathVar) ∧
    resolvePath ['f', 'o', 'o'] (some ['/', 'b', 'i', 'n']) =
      ['/', 'b', 'i', 'n', '/', 'f', 'o', 'o'] ∧
    (∀ pathVar, resolvePath ['.', '/', 'f', 'o', 'o'] pathVar = ['.', '/', 'f', 'o', 'o']) ∧
    (∀ pathVar, resolvePath ['/', 'b', 'i', 'n', '/', 'f', 'o', 'o'] pathVar =
      ['/', 'b', 'i', 'n', '/', 'f', 'o', 'o']) := by
  refine ⟨?_, rfl, fun _ => rfl, fun _ => rfl⟩
  intro path pathVar
  cases hc : path.contains ':' <;> cases hs : path.contains '/' <;>
    simp only [resolvePath, resolvePathSpec, hc, hs, Bool.or_false, Bool.false_or,
      Bool.or_true, Bool.true_or, if_true, if_false, Bool.not_eq_true']
  cases hg : ((pathVar.getD ['.']).getLast? == some '/') <;>
    simp [hg, List.append_assoc]

/-- C7: `success()` is true exactly when the raw status word is zero; waiting
on a child that exited with code 0 yields an `ExitStatus` with
`success() = true` and `code() = Some 0`, and code 7 yields
`success() = false` and `code() = Some 7`. -/
theorem exit_status_success_and_codes :
    (∀ s : Nat, (ExitStatus.mk s).success = true ↔ s = 0) ∧
    Child.wait (.ok (waitStatusOfExit 0)) = .ok ⟨0⟩ ∧
    (ExitStatus.mk (waitStatusOfExit 0)).success = true ∧
    (ExitStatus.mk (waitStatusOfExit 0)).code = some 0 ∧
    Child.wait (.ok (waitStatusOfExit 7)) = .ok ⟨7⟩ ∧
    (ExitStatus.mk (waitStatusOfExit 7)).success = false ∧
    (ExitStatus.mk (waitStatusOfExit 7)).code = some 7 := by
  refine ⟨?_, rfl, rfl, by decide, rfl, rfl, by decide⟩
  intro s
  simp [ExitStatus.success]

/-- Witness for the C7 theorem applied at the concrete status word 0. -/
theorem exit_status_success_witness :
    (ExitStatus.mk 0).success = true :=
  (exit_status_success_and_codes.1 0).mpr rfl

/-- C8 counterexample: the Stdio fields of a Command are not consumed by a
spawn — after spawning a Command whose stdin is `Piped(3, 4)`, the Command
still holds `Piped(3, 4)`, and a second spawn attempt on it performs
descriptor cleanup on the very same descriptors 3 and 4 a second time, so
reuse across spawns is possible. -/
theorem stdio_not_consumed_counterexample :
    execCommandAfter
        { path := ['p'], args := [], env := [],
          stdin := ⟨.Piped 3 4⟩, stdout := Stdio.inherit, stderr := Stdio.inherit } =
      { path := ['p'], args := [], env := [],
        stdin := ⟨.Piped 3 4⟩, stdout := Stdio.inherit, stderr := Stdio.inherit } ∧
    (execEngine
        { path := ['p'], args := [], env := [],
          stdin := ⟨.Piped 3 4⟩, stdout := Stdio.inherit, stderr := Stdio.inherit }
        (.parent 9) (.error 5)).closed = [3, 4] ∧
    (execEngine
        (execCommandAfter
          { path := ['p'], args := [], env := [],
            stdin := ⟨.Piped 3 4⟩, stdout := Stdio.inherit, stderr := Stdio.inherit })
        (.parent 10) (.error 5)).closed = [3, 4] :=
  ⟨rfl, rfl, rfl⟩

/-- C8 (amended): `StdioType` is `Copy` and `exec` takes the Command by
mutable reference without clearing its fields, so all three Stdio selections
survive a spawn attempt unchanged and any further spawn of the same Command
operates on exactly the same descriptors — consume-once is not enforced by
the type. -/
theorem stdio_fields_survive_spawn (c : Command) (cloneRes : CloneOutcome)
    (resWord : Except Nat Nat) :
    (execCommandAfter c).stdin = c.stdin ∧
    (execCommandAfter c).stdout = c.stdout ∧
    (execCommandAfter c).stderr = c.stderr ∧
    execEngine (execCommandAfter c) cloneRes resWord = execEngine c cloneRes resWord :=
  ⟨rfl, rfl, rfl, rfl⟩

/-- C10: `code()` never returns `None` — it is always `Some` of the raw
status word truncated to a signed 32-bit value — so `success() = true`
implies `code() = Some 0`, while `code() = Some 0` does not imply
`success()`: the raw word `2 ^ 32` truncates to code 0 yet is not a success. -/
theorem exit_code_always_some :
    (∀ s : Nat, ((ExitStatus.mk s).code).isSome = true) ∧
    (∀ s : Nat, (ExitStatus.mk s).code = some (asI32 s)) ∧
    (∀ s : Nat, (ExitStatus.mk s).success = true → (ExitStatus.mk s).code = some 0) ∧
    (ExitStatus.mk (2 ^ 32)).code = some 0 ∧
    (ExitStatus.mk (2 ^ 32)).success = false := by
  refine ⟨fun s => rfl, fun s => rfl, ?_, by decide, by decide⟩
  intro s h
  have hs : s = 0 := by simpa [ExitStatus.success] using h
  subst hs
  decide

/-- Witness for the C10 theorem applied at the concrete status word 0. -/
theorem exit_code_witness :
    (ExitStatus.mk 0).code = some 0 :=
  exit_code_always_some.2.2.1 0 rfl
